import Mathlib

set_option autoImplicit false

/-
  Verification development for the Omie invoice pipeline.

  The Python sources are shallowly embedded as Lean functions:
  SQLite tables become lists of rows, the filesystem becomes an explicit
  record of directories and files, network calls become oracle inputs,
  and `datetime.strptime` / `strftime` (as used with the formats
  `%d/%m/%Y`, `%Y-%m-%d`, `%Y%m%d` on a glibc platform) are embedded
  character by character, including CPython's regex-based field matching
  (1-2 digit months/days, exactly 4 digit years) and glibc's unpadded
  rendering of `%Y`.
-/

namespace Omie

/-! ## Characters and digits -/

/-- The decimal digit character for `n ≤ 9` (as produced by C `printf`-style
formatting inside `strftime`). -/
def digitChar (n : Nat) : Char :=
  match n with
  | 0 => '0' | 1 => '1' | 2 => '2' | 3 => '3' | 4 => '4'
  | 5 => '5' | 6 => '6' | 7 => '7' | 8 => '8' | _ => '9'

/-- Numeric value of a digit character. -/
def digitVal (c : Char) : Nat := c.toNat - 48

/-- `c` is an ASCII decimal digit (the `\d` of CPython strptime patterns). -/
def isDigitChar (c : Char) : Bool := 48 ≤ c.toNat && c.toNat ≤ 57

/-- ASCII whitespace as stripped by Python `str.strip()`. -/
def isPySpace (c : Char) : Bool :=
  c == ' ' || c == '\t' || c == '\n' || c == '\r' || c == '\x0b' || c == '\x0c'

/-- Python `str.strip()` on a character list. -/
def pyStrip (cs : List Char) : List Char :=
  ((cs.dropWhile isPySpace).reverse.dropWhile isPySpace).reverse

/-- Python `c in s` membership test for one character. -/
def containsChar (cs : List Char) (c : Char) : Bool :=
  cs.any (fun x => x == c)

/-! ## Calendar validity (the checks done by the `datetime` constructor) -/

/-- Gregorian leap-year test, as in `calendar.isleap`. -/
def isLeapYear (y : Nat) : Bool :=
  (y % 4 == 0 && y % 100 != 0) || y % 400 == 0

/-- Number of days of month `m` in year `y`. -/
def daysInMonth (y m : Nat) : Nat :=
  if m = 2 then (if isLeapYear y then 29 else 28)
  else if m = 4 ∨ m = 6 ∨ m = 9 ∨ m = 11 then 30
  else 31

/-- The `datetime(y, m, d)` constructor accepts exactly these triples
(`MINYEAR = 1`, `MAXYEAR = 9999`). -/
def DataValida (y m d : Nat) : Prop :=
  1 ≤ y ∧ y ≤ 9999 ∧ 1 ≤ m ∧ m ≤ 12 ∧ 1 ≤ d ∧ d ≤ daysInMonth y m

instance (y m d : Nat) : Decidable (DataValida y m d) := by
  unfold DataValida; infer_instance

/-! ## strptime field parsers

CPython's `_strptime` compiles each directive to a regex:
`%Y ↦ \d\d\d\d`, `%m ↦ (1[0-2]|0[1-9]|[1-9])`, `%d ↦ (3[01]|[12]\d|0[1-9]|[1-9])`,
alternatives tried left to right. We embed each directive as a parser on
`List Char` returning the value and the unconsumed rest. -/

/-- `%Y`: exactly four digits. -/
def parse4Y : List Char → Option (Nat × List Char)
  | a :: b :: c :: d :: rest =>
    if isDigitChar a && isDigitChar b && isDigitChar c && isDigitChar d then
      some (1000 * digitVal a + 100 * digitVal b + 10 * digitVal c + digitVal d, rest)
    else none
  | _ => none

/-- `%m`: regex `(1[0-2]|0[1-9]|[1-9])`, two-digit alternatives first. -/
def parseMonth2 : List Char → Option (Nat × List Char)
  | [] => none
  | c1 :: rest1 =>
    match rest1 with
    | c2 :: rest2 =>
      if c1 == '1' && (c2 == '0' || c2 == '1' || c2 == '2') then
        some (10 + digitVal c2, rest2)
      else if c1 == '0' && (49 ≤ c2.toNat && c2.toNat ≤ 57) then
        some (digitVal c2, rest2)
      else if 49 ≤ c1.toNat && c1.toNat ≤ 57 then
        some (digitVal c1, rest1)
      else none
    | [] =>
      if 49 ≤ c1.toNat && c1.toNat ≤ 57 then some (digitVal c1, []) else none

/-- `%d`: regex `(3[01]|[12]\d|0[1-9]|[1-9])`, two-digit alternatives first. -/
def parseDay2 : List Char → Option (Nat × List Char)
  | [] => none
  | c1 :: rest1 =>
    match rest1 with
    | c2 :: rest2 =>
      if c1 == '3' && (c2 == '0' || c2 == '1') then
        some (30 + digitVal c2, rest2)
      else if (c1 == '1' || c1 == '2') && isDigitChar c2 then
        some (10 * digitVal c1 + digitVal c2, rest2)
      else if c1 == '0' && (49 ≤ c2.toNat && c2.toNat ≤ 57) then
        some (digitVal c2, rest2)
      else if 49 ≤ c1.toNat && c1.toNat ≤ 57 then
        some (digitVal c1, rest1)
      else none
    | [] =>
      if 49 ≤ c1.toNat && c1.toNat ≤ 57 then some (digitVal c1, []) else none

/-- A literal character of the format string. -/
def expectSep (c : Char) : List Char → Option (List Char)
  | x :: rest => if x == c then some rest else none
  | [] => none

/-- `datetime.strptime(s, "%d/%m/%Y")`: whole-string match, then the
`datetime` constructor validates the triple. Returns `(y, m, d)`. -/
def strptime_dmY (cs : List Char) : Option (Nat × Nat × Nat) :=
  match parseDay2 cs with
  | none => none
  | some (d, r1) =>
    match expectSep '/' r1 with
    | none => none
    | some r2 =>
      match parseMonth2 r2 with
      | none => none
      | some (m, r3) =>
        match expectSep '/' r3 with
        | none => none
        | some r4 =>
          match parse4Y r4 with
          | none => none
          | some (y, r5) =>
            if r5 = [] then
              if DataValida y m d then some (y, m, d) else none
            else none

/-- `datetime.strptime(s, "%Y-%m-%d")`. Returns `(y, m, d)`. -/
def strptime_Ymd (cs : List Char) : Option (Nat × Nat × Nat) :=
  match parse4Y cs with
  | none => none
  | some (y, r1) =>
    match expectSep '-' r1 with
    | none => none
    | some r2 =>
      match parseMonth2 r2 with
      | none => none
      | some (m, r3) =>
        match expectSep '-' r3 with
        | none => none
        | some r4 =>
          match parseDay2 r4 with
          | none => none
          | some (d, r5) =>
            if r5 = [] then
              if DataValida y m d then some (y, m, d) else none
            else none

/-- `datetime.strptime(s, "%Y%m%d")`. Returns `(y, m, d)`. -/
def strptime_Ymd8 (cs : List Char) : Option (Nat × Nat × Nat) :=
  match parse4Y cs with
  | none => none
  | some (y, r1) =>
    match parseMonth2 r1 with
    | none => none
    | some (m, r2) =>
      match parseDay2 r2 with
      | none => none
      | some (d, r3) =>
        if r3 = [] then
          if DataValida y m d then some (y, m, d) else none
        else none

/-! ## strftime rendering (glibc) -/

/-- Two-digit zero-padded field (`%m`, `%d`). -/
def pad2 (n : Nat) : List Char :=
  if n < 10 then ['0', digitChar n] else [digitChar (n / 10), digitChar (n % 10)]

/-- glibc `%Y`: the year printed in decimal without zero padding
(years below 1000 yield fewer than four characters). -/
def fmtY (y : Nat) : List Char :=
  if 1000 ≤ y then
    [digitChar (y / 1000), digitChar (y / 100 % 10), digitChar (y / 10 % 10), digitChar (y % 10)]
  else if 100 ≤ y then
    [digitChar (y / 100), digitChar (y / 10 % 10), digitChar (y % 10)]
  else if 10 ≤ y then
    [digitChar (y / 10), digitChar (y % 10)]
  else
    [digitChar y]

/-- `strftime("%Y-%m-%d")`. -/
def fmtIsoYmd (y m d : Nat) : List Char :=
  fmtY y ++ '-' :: (pad2 m ++ '-' :: pad2 d)

/-- `strftime("%Y%m%d")`. -/
def fmtCompactYmd (y m d : Nat) : List Char :=
  fmtY y ++ pad2 m ++ pad2 d

/-! ## `normalizar_data` (src/src/utils.py) -/

/-- `normalizar_data(data)`: normalizes a date string to ISO form, returning
`none` for `None`, blank, or unparseable input. The three branches mirror the
source: a string containing a slash is parsed as `%d/%m/%Y`, else one
containing a dash as `%Y-%m-%d`, else an 8-digit string as `%Y%m%d`; the
parsed date is re-rendered with `strftime("%Y-%m-%d")`. -/
def normalizar_data : Option String → Option String
  | none => none
  | some s =>
    if s = "" then none
    else
      let cs := pyStrip s.toList
      if cs = [] then none
      else if containsChar cs '/' then
        (strptime_dmY cs).map (fun t => String.mk (fmtIsoYmd t.1 t.2.1 t.2.2))
      else if containsChar cs '-' then
        (strptime_Ymd cs).map (fun t => String.mk (fmtIsoYmd t.1 t.2.1 t.2.2))
      else if cs.length = 8 && cs.all isDigitChar then
        (strptime_Ymd8 cs).map (fun t => String.mk (fmtIsoYmd t.1 t.2.1 t.2.2))
      else none

example : normalizar_data (some ("17/07/2025")) = some ("2025-07-17") := by decide
example : normalizar_data (some ("2025-7-7")) = some ("2025-07-07") := by decide
example : normalizar_data (some ("20250717")) = some ("2025-07-17") := by decide
example : normalizar_data (some ("invalid")) = none := by decide
example : normalizar_data (some ("31/02/2025")) = none := by decide

/-! ## Round-trip lemmas for `normalizar_data` -/

theorem digitChar_spec (k : Nat) (h : k < 10) :
    digitVal (digitChar k) = k ∧ isDigitChar (digitChar k) = true ∧
    isPySpace (digitChar k) = false ∧ (digitChar k == '/') = false ∧
    (digitChar k == '-') = false := by
  interval_cases k <;> decide

theorem daysInMonth_le (y m : Nat) : daysInMonth y m ≤ 31 := by
  unfold daysInMonth
  split_ifs <;> omega

theorem parse4Y_fmtY (y : Nat) (rest : List Char) (h1 : 1000 ≤ y) (h2 : y ≤ 9999) :
    parse4Y (fmtY y ++ rest) = some (y, rest) := by
  have d3 : y / 1000 < 10 := by omega
  have d2 : y / 100 % 10 < 10 := by omega
  have d1 : y / 10 % 10 < 10 := by omega
  have d0 : y % 10 < 10 := by omega
  simp only [fmtY, if_pos h1, List.cons_append, List.nil_append, parse4Y,
    (digitChar_spec _ d3).2.1, (digitChar_spec _ d2).2.1,
    (digitChar_spec _ d1).2.1, (digitChar_spec _ d0).2.1,
    Bool.and_self, if_pos,
    (digitChar_spec _ d3).1, (digitChar_spec _ d2).1,
    (digitChar_spec _ d1).1, (digitChar_spec _ d0).1,
    Option.some.injEq, Prod.mk.injEq, and_true]
  omega

theorem parseMonth2_pad2 (m : Nat) (rest : List Char) (h1 : 1 ≤ m) (h2 : m ≤ 12) :
    parseMonth2 (pad2 m ++ rest) = some (m, rest) := by
  interval_cases m <;> rfl

theorem parseDay2_pad2 (d : Nat) (rest : List Char) (h1 : 1 ≤ d) (h2 : d ≤ 31) :
    parseDay2 (pad2 d ++ rest) = some (d, rest) := by
  interval_cases d <;> rfl

theorem parseDay2_pad2_nil (d : Nat) (h1 : 1 ≤ d) (h2 : d ≤ 31) :
    parseDay2 (pad2 d) = some (d, []) := by
  have h := parseDay2_pad2 d [] h1 h2
  rwa [List.append_nil] at h

theorem strptime_Ymd_fmtIso (y m d : Nat) (hv : DataValida y m d) (hy : 1000 ≤ y) :
    strptime_Ymd (fmtIsoYmd y m d) = some (y, m, d) := by
  obtain ⟨h1, h2, h3, h4, h5, h6⟩ := hv
  have hd31 : d ≤ 31 := le_trans h6 (daysInMonth_le y m)
  unfold fmtIsoYmd strptime_Ymd
  rw [parse4Y_fmtY y _ hy h2]
  simp only [expectSep, beq_self_eq_true, if_pos]
  rw [parseMonth2_pad2 m _ h3 h4]
  simp only [expectSep, beq_self_eq_true, if_pos]
  rw [parseDay2_pad2_nil d h5 hd31]
  simp [DataValida, h1, h2, h3, h4, h5, h6]

theorem dropWhile_eq_self_of_no (p : Char → Bool) (cs : List Char)
    (h : ∀ c ∈ cs, p c = false) : cs.dropWhile p = cs := by
  cases cs with
  | nil => rfl
  | cons a l =>
    rw [List.dropWhile_cons, if_neg]
    simp [h a (List.mem_cons_self a l)]

theorem pyStrip_eq_self (cs : List Char) (h : ∀ c ∈ cs, isPySpace c = false) :
    pyStrip cs = cs := by
  unfold pyStrip
  rw [dropWhile_eq_self_of_no _ _ h,
    dropWhile_eq_self_of_no _ _ (fun c hc => h c (List.mem_reverse.mp hc)),
    List.reverse_reverse]

theorem fmtY_all_digits (y : Nat) (hy : y ≤ 9999) :
    ∀ c ∈ fmtY y, isDigitChar c = true := by
  intro c hc
  unfold fmtY at hc
  split_ifs at hc with g1 g2 g3 <;>
    simp only [List.mem_cons, List.not_mem_nil, or_false] at hc <;>
    rcases hc with rfl | rfl | rfl | rfl <;>
    exact (digitChar_spec _ (by omega)).2.1

theorem pad2_all_digits (n : Nat) (hn : n ≤ 99) :
    ∀ c ∈ pad2 n, isDigitChar c = true := by
  intro c hc
  unfold pad2 at hc
  split_ifs at hc with g1 <;>
    simp only [List.mem_cons, List.not_mem_nil, or_false] at hc <;>
    rcases hc with rfl | rfl
  · decide
  · exact (digitChar_spec _ (by omega)).2.1
  · exact (digitChar_spec _ (by omega)).2.1
  · exact (digitChar_spec _ (by omega)).2.1

theorem digit_not_space (c : Char) (h : isDigitChar c = true) : isPySpace c = false := by
  simp only [isDigitChar, Bool.and_eq_true, decide_eq_true_eq] at h
  simp only [isPySpace, Bool.or_eq_false_iff]
  refine ⟨⟨⟨⟨⟨?_, ?_⟩, ?_⟩, ?_⟩, ?_⟩, ?_⟩ <;>
    · simp only [beq_eq_false_iff_ne, ne_eq]
      rintro rfl
      exact absurd h (by decide)

theorem digit_ne_slash (c : Char) (h : isDigitChar c = true) : (c == '/') = false := by
  simp only [isDigitChar, Bool.and_eq_true, decide_eq_true_eq] at h
  simp only [beq_eq_false_iff_ne, ne_eq]
  rintro rfl
  exact absurd h (by decide)

theorem fmtIsoYmd_chars (y m d : Nat) (hv : DataValida y m d) :
    ∀ c ∈ fmtIsoYmd y m d, isDigitChar c = true ∨ c = '-' := by
  obtain ⟨h1, h2, h3, h4, h5, h6⟩ := hv
  have hd31 : d ≤ 31 := le_trans h6 (daysInMonth_le y m)
  intro c hc
  unfold fmtIsoYmd at hc
  rcases List.mem_append.mp hc with hY | hrest
  · exact Or.inl (fmtY_all_digits y h2 c hY)
  · rcases List.mem_cons.mp hrest with rfl | hrest2
    · exact Or.inr rfl
    · rcases List.mem_append.mp hrest2 with hm | hd
      · exact Or.inl (pad2_all_digits m (by omega) c hm)
      · rcases List.mem_cons.mp hd with rfl | hd2
        · exact Or.inr rfl
        · exact Or.inl (pad2_all_digits d (by omega) c hd2)

theorem fmtIsoYmd_no_space (y m d : Nat) (hv : DataValida y m d) :
    ∀ c ∈ fmtIsoYmd y m d, isPySpace c = false := by
  intro c hc
  rcases fmtIsoYmd_chars y m d hv c hc with hdig | rfl
  · exact digit_not_space c hdig
  · decide

theorem fmtIsoYmd_no_slash (y m d : Nat) (hv : DataValida y m d) :
    containsChar (fmtIsoYmd y m d) '/' = false := by
  simp only [containsChar, List.any_eq_false]
  intro c hc
  rcases fmtIsoYmd_chars y m d hv c hc with hdig | rfl
  · simp [digit_ne_slash c hdig]
  · decide

theorem fmtIsoYmd_has_dash (y m d : Nat) :
    containsChar (fmtIsoYmd y m d) '-' = true := by
  simp only [containsChar, List.any_eq_true]
  refine ⟨'-', ?_, by decide⟩
  unfold fmtIsoYmd
  exact List.mem_append.mpr (Or.inr (List.mem_cons_self _ _))

theorem fmtY_ne_nil (y : Nat) : fmtY y ≠ [] := by
  unfold fmtY
  split_ifs <;> simp

theorem fmtIsoYmd_ne_nil (y m d : Nat) : fmtIsoYmd y m d ≠ [] := by
  unfold fmtIsoYmd
  simp [fmtY_ne_nil y]

theorem pad2_length (n : Nat) : (pad2 n).length = 2 := by
  unfold pad2
  split_ifs <;> rfl

theorem fmtIsoYmd_length_ten (y m d : Nat) (h : (fmtIsoYmd y m d).length = 10) :
    1000 ≤ y := by
  unfold fmtIsoYmd at h
  simp only [List.length_append, List.length_cons, pad2_length] at h
  by_contra hy
  unfold fmtY at h
  rw [if_neg hy] at h
  split_ifs at h <;> simp at h

theorem strptime_Ymd_valid (cs : List Char) (y m d : Nat)
    (h : strptime_Ymd cs = some (y, m, d)) : DataValida y m d := by
  unfold strptime_Ymd at h
  repeat' split at h
  all_goals simp_all

theorem strptime_dmY_valid (cs : List Char) (y m d : Nat)
    (h : strptime_dmY cs = some (y, m, d)) : DataValida y m d := by
  unfold strptime_dmY at h
  repeat' split at h
  all_goals simp_all

theorem strptime_Ymd8_valid (cs : List Char) (y m d : Nat)
    (h : strptime_Ymd8 cs = some (y, m, d)) : DataValida y m d := by
  unfold strptime_Ymd8 at h
  repeat' split at h
  all_goals simp_all

/-- Renormalizing a rendered date with a four-digit year is the identity. -/
theorem normalizar_data_fmt (y m d : Nat) (hv : DataValida y m d) (hy : 1000 ≤ y) :
    normalizar_data (some (String.mk (fmtIsoYmd y m d))) =
      some (String.mk (fmtIsoYmd y m d)) := by
  have hne : String.mk (fmtIsoYmd y m d) ≠ "" := by
    intro hcontra
    exact fmtIsoYmd_ne_nil y m d (congrArg String.data hcontra)
  have hstrip : pyStrip (fmtIsoYmd y m d) = fmtIsoYmd y m d :=
    pyStrip_eq_self _ (fmtIsoYmd_no_space y m d hv)
  simp only [normalizar_data, String.toList, hstrip, if_neg hne,
    fmtIsoYmd_no_slash y m d hv, fmtIsoYmd_has_dash y m d,
    if_neg (fmtIsoYmd_ne_nil y m d), Bool.false_eq_true, if_false, if_true,
    strptime_Ymd_fmtIso y m d hv hy, Option.map_some']

/-- Claim C10, counterexample: `normalizar_data` is not idempotent and does not
always return an ISO `YYYY-MM-DD` string. For the input `17/07/0025` (year 25,
a valid `datetime`), glibc `strftime("%Y")` renders the year without zero
padding, so the result is `25-07-17`; re-normalizing that result fails the
four-digit `%Y` pattern of `strptime` and yields `None` instead of the result
itself. -/
theorem claim_C10_counterexample :
    normalizar_data (some ("17/07/0025")) = some ("25-07-17") ∧
    normalizar_data (some ("25-07-17")) = none ∧
    normalizar_data (normalizar_data (some ("17/07/0025"))) ≠
      normalizar_data (some ("17/07/0025")) := by
  refine ⟨by decide, by decide, by decide⟩

/-- Claim C10 (amended): `normalizar_data` is total (a Lean function, never
raising), and it is idempotent on every non-`none` result whose year rendered
with four digits, i.e. every result of the full ISO length 10. (Years below
1000 render unpadded and re-normalize to `none`, as the counterexample
shows.) -/
theorem claim_C10_amended (s r : String)
    (h : normalizar_data (some s) = some r) (hlen : r.length = 10) :
    normalizar_data (some r) = some r := by
  simp only [normalizar_data] at h
  split_ifs at h with g1 g2 g3 g4 g5
  · cases hx : strptime_dmY (pyStrip s.toList) with
    | none => rw [hx] at h; exact absurd h (by simp)
    | some t =>
      obtain ⟨y, m, d⟩ := t
      rw [hx] at h
      simp only [Option.map_some', Option.some.injEq] at h
      subst h
      exact normalizar_data_fmt y m d (strptime_dmY_valid _ _ _ _ hx)
        (fmtIsoYmd_length_ten y m d hlen)
  · cases hx : strptime_Ymd (pyStrip s.toList) with
    | none => rw [hx] at h; exact absurd h (by simp)
    | some t =>
      obtain ⟨y, m, d⟩ := t
      rw [hx] at h
      simp only [Option.map_some', Option.some.injEq] at h
      subst h
      exact normalizar_data_fmt y m d (strptime_Ymd_valid _ _ _ _ hx)
        (fmtIsoYmd_length_ten y m d hlen)
  · cases hx : strptime_Ymd8 (pyStrip s.toList) with
    | none => rw [hx] at h; exact absurd h (by simp)
    | some t =>
      obtain ⟨y, m, d⟩ := t
      rw [hx] at h
      simp only [Option.map_some', Option.some.injEq] at h
      subst h
      exact normalizar_data_fmt y m d (strptime_Ymd8_valid _ _ _ _ hx)
        (fmtIsoYmd_length_ten y m d hlen)

/-- Witness for the amended C10 theorem at a concrete input. -/
theorem claim_C10_amended_witness :
    normalizar_data (some ("17/07/2025")) = some ("2025-07-17") ∧
    normalizar_data (some ("2025-07-17")) = some ("2025-07-17") :=
  ⟨by decide,
   claim_C10_amended ("17/07/2025") ("2025-07-17") (by decide) (by decide)⟩

/-! ## The `notas` table

One row of the SQLite table created by `iniciar_db` (src/utils.py), keyed by
`cChaveNFe`. `BOOLEAN` columns are stored as 0/1 and modelled as `Bool`;
nullable columns are `Option`; the `REAL` column `vNF` is carried as an
opaque rational value (it is never computed with in the functions under
study, only stored and copied). A database state is a `List Nota` in rowid
order (plain `INSERT` appends). -/

structure Nota where
  cChaveNFe : String
  nIdNF : Option Int
  nIdPedido : Option Int
  dCan : Option String
  dEmi : Option String
  dInut : Option String
  dReg : Option String
  dSaiEnt : Option String
  hEmi : Option String
  hSaiEnt : Option String
  mod : Option String
  nNF : Option String
  serie : Option String
  tpAmb : Option String
  tpNF : Option String
  cnpj_cpf : Option String
  cRazao : Option String
  vNF : Option Rat
  xml_baixado : Bool
  caminho_arquivo : Option String
  baixado_novamente : Bool
  xml_vazio : Bool
deriving DecidableEq, Repr

/-- An item dictionary as normalized from one listing-API response
(`normalizar_nota` / the literal dict in `listar_nfs`): every field is
optional because `dict.get` returns `None` for missing keys. -/
structure Registro where
  cChaveNFe : Option String
  nIdNF : Option Int
  nIdPedido : Option Int
  dCan : Option String
  dEmi : Option String
  dInut : Option String
  dReg : Option String
  dSaiEnt : Option String
  hEmi : Option String
  hSaiEnt : Option String
  mod : Option String
  nNF : Option String
  serie : Option String
  tpAmb : Option String
  tpNF : Option String
  cnpj_cpf : Option String
  cRazao : Option String
  vNF : Option Rat
deriving DecidableEq, Repr

/-- The row inserted for a registro by v1 `salvar_nota` / `salvar_varias_notas`:
the status columns get their defaults (`caminho_arquivo = NULL`,
`baixado_novamente = 0`, `xml_vazio = 0`, and `xml_baixado` falls back to its
column default 0 since it is absent from the column list). -/
def registroParaNota (r : Registro) : Nota :=
  { cChaveNFe := r.cChaveNFe.getD ""
    nIdNF := r.nIdNF
    nIdPedido := r.nIdPedido
    dCan := r.dCan
    dEmi := r.dEmi
    dInut := r.dInut
    dReg := r.dReg
    dSaiEnt := r.dSaiEnt
    hEmi := r.hEmi
    hSaiEnt := r.hSaiEnt
    mod := r.mod
    nNF := r.nNF
    serie := r.serie
    tpAmb := r.tpAmb
    tpNF := r.tpNF
    cnpj_cpf := r.cnpj_cpf
    cRazao := r.cRazao
    vNF := r.vNF
    xml_baixado := false
    caminho_arquivo := none
    baixado_novamente := false
    xml_vazio := false }

/-- `SELECT 1 FROM notas WHERE cChaveNFe = ?` — the unique-key check that
`INSERT OR IGNORE` performs against the primary key. -/
def chaveExiste (db : List Nota) (chave : String) : Bool :=
  db.any (fun n => decide (n.cChaveNFe = chave))

/-- `INSERT OR IGNORE` of one row: a duplicate primary key leaves the table
unchanged, a new key appends the row. -/
def insertOrIgnore (db : List Nota) (n : Nota) : List Nota :=
  if chaveExiste db n.cChaveNFe then db else db ++ [n]

/-- `executemany` of `INSERT OR IGNORE` over a prepared batch. -/
def insertOrIgnoreMany (db : List Nota) (ns : List Nota) : List Nota :=
  ns.foldl insertOrIgnore db

/-- The v1 batch loop skips registros with a falsy key
(`if not chave: continue`). -/
def chaveValida_v1 (r : Registro) : Bool :=
  match r.cChaveNFe with
  | none => false
  | some s => !(s == "")

/-- v1 `salvar_varias_notas` (src/utils.py): drop key-less registros, map the
rest to rows, and bulk `INSERT OR IGNORE` them in one transaction. (The v3
rewrite in src/src/utils.py validates and normalizes each registro first but
performs the identical `INSERT OR IGNORE` on the same primary key.) -/
def salvar_varias_notas (regs : List Registro) (db : List Nota) : List Nota :=
  insertOrIgnoreMany db ((regs.filter chaveValida_v1).map registroParaNota)

/-- `SELECT ... WHERE cChaveNFe = ?` returning the row for a key. -/
def buscarNota (db : List Nota) (chave : String) : Option Nota :=
  db.find? (fun n => decide (n.cChaveNFe = chave))

/-! ## Pending-record queries (Claim C6) -/

/-- `baixar_xmls_em_parallel` (src/baixar_parallel.py):
`SELECT nIdNF, cChaveNFe, dEmi, nNF FROM notas WHERE xml_baixado = 0`.
We model the selected row set; the column projection is irrelevant to the
claims. -/
def pendentes_baixar_parallel (db : List Nota) : List Nota :=
  db.filter (fun n => !n.xml_baixado)

/-- `obter_registros_pendentes` (src/src/utils.py), no day filter:
`SELECT ... FROM notas WHERE xml_baixado = 0 ORDER BY dEmi, nNF`. The ordering
is not modelled; the claim is about the returned set. -/
def obter_registros_pendentes (db : List Nota) : List Nota :=
  db.filter (fun n => !n.xml_baixado)

/-- The pending query of the async downloader `baixar_xmls`
(src/src/extrator_async.py). All four query variants (view, hinted and
plain) filter `WHERE xml_baixado = 0 AND nIdNF IS NOT NULL`; the
`ORDER BY anomesdia DESC` is not modelled. -/
def pendentes_extrator_async (db : List Nota) : List Nota :=
  db.filter (fun n => !n.xml_baixado && !(n.nIdNF == none))

/-! ## Invalid-record maintenance (Claim C7) -/

/-- SQL `TRIM(x)`: removes leading and trailing space characters only. -/
def sqlTrim (cs : List Char) : List Char :=
  ((cs.dropWhile (fun c => c == ' ')).reverse.dropWhile (fun c => c == ' ')).reverse

/-- The per-column invalidity test of `marcar_registros_invalidos_e_listar_dias`:
`x IS NULL OR TRIM(x) = '' OR x = '-'`. -/
def campoInvalido : Option String → Bool
  | none => true
  | some s => decide (sqlTrim s.toList = []) || s == "-"

/-- A row matching the `query_invalidos` WHERE clause: some mandatory field
(`cChaveNFe`, `dEmi`, `nNF`) is null, blank or a dash. -/
def registroInvalido (n : Nota) : Bool :=
  campoInvalido (some n.cChaveNFe) || campoInvalido n.dEmi || campoInvalido n.nNF

/-- Sorted-set construction mirroring Python `sorted(set(...))` on strings:
insertion keeping the list strictly ascending, dropping duplicates. -/
def insOrdenada (s : String) : List String → List String
  | [] => [s]
  | x :: xs =>
    if s < x then s :: x :: xs
    else if s = x then x :: xs
    else x :: insOrdenada s xs

/-- Fold of `insOrdenada`, yielding the sorted distinct elements. -/
def ordenarDistintos (l : List String) : List String :=
  l.foldr insOrdenada []

/-- The date one row contributes to the affected-day set: for a truthy
`dEmi`, `normalizar_data(str(data_emissao).strip())` when it succeeds. -/
def diaDeNota (n : Nota) : Option String :=
  match n.dEmi with
  | none => none
  | some s =>
    if s = "" then none
    else normalizar_data (some (String.mk (pyStrip s.toList)))

/-- The normalized emission dates contributed by the invalid rows. -/
def diasInvalidos (db : List Nota) : List String :=
  (db.filter registroInvalido).filterMap diaDeNota

/-- `marcar_registros_invalidos_e_listar_dias` (src/src/utils.py): selects the
rows with invalid mandatory fields, collects and returns their distinct
normalized emission dates — and performs no UPDATE or DELETE at all (the
marking was removed; the function only logs). The pair is
(returned day list, table afterwards). -/
def marcar_registros_invalidos_e_listar_dias (db : List Nota) :
    List String × List Nota :=
  (ordenarDistintos (diasInvalidos db), db)

/-- The WHERE clause of the cleanup DELETE:
`xml_baixado = 0 AND dEmi IN (days)` — note it does not test field
validity (`IN` is false for a NULL `dEmi`). -/
def apagarPorDia (dias : List String) (n : Nota) : Bool :=
  !n.xml_baixado &&
    (match n.dEmi with
     | some s => dias.any (fun x => decide (x = s))
     | none => false)

/-- `limpar_registros_invalidos_reprocessados` (src/src/utils.py):
`DELETE FROM notas WHERE xml_baixado = 0 AND dEmi IN (days)`. Returns
(rowcount, table afterwards); an empty day list short-circuits. -/
def limpar_registros_invalidos_reprocessados (db : List Nota) (dias : List String) :
    Nat × List Nota :=
  if dias = [] then (0, db)
  else
    ((db.filter (apagarPorDia dias)).length,
     db.filter (fun n => !apagarPorDia dias n))

/-! ## Sample rows for concrete evaluations -/

/-- A row with every nullable field null and all flags at their defaults. -/
def notaBase : Nota :=
  { cChaveNFe := ""
    nIdNF := none
    nIdPedido := none
    dCan := none
    dEmi := none
    dInut := none
    dReg := none
    dSaiEnt := none
    hEmi := none
    hSaiEnt := none
    mod := none
    nNF := none
    serie := none
    tpAmb := none
    tpNF := none
    cnpj_cpf := none
    cRazao := none
    vNF := none
    xml_baixado := false
    caminho_arquivo := none
    baixado_novamente := false
    xml_vazio := false }

/-- A well-formed 44-digit access key. -/
def chaveExemplo : String := "35250714200166000196550010000123451234567890"

/-- A pending row with all mandatory fields present. -/
def notaValidaPendente : Nota :=
  { notaBase with
      cChaveNFe := chaveExemplo
      nIdNF := some 555
      dEmi := some ("2025-07-17")
      nNF := some ("7") }

/-- A pending row whose key column holds the placeholder dash (structurally
invalid under the maintenance query). -/
def notaInvalida : Nota :=
  { notaBase with
      cChaveNFe := "-"
      dEmi := some ("2025-07-17")
      nNF := some ("1") }

/-- A pending row as the v1 pipeline stores it: the emission date kept in
the Brazilian `dd/mm/yyyy` form the listing API returns. -/
def notaPendenteBr : Nota :=
  { notaBase with
      cChaveNFe := chaveExemplo
      nIdNF := some 555
      dEmi := some ("17/07/2025")
      nNF := some ("7") }

/-- A pending row with a NULL `nIdNF` (never fetched an external id). -/
def notaSemIdNF : Nota :=
  { notaBase with
      cChaveNFe := chaveExemplo
      nIdNF := none
      dEmi := some ("2025-07-17")
      nNF := some ("7") }

/-! ## Upsert lemmas (Claim C2) -/

theorem chaveExiste_iff (db : List Nota) (k : String) :
    chaveExiste db k = true ↔ ∃ n ∈ db, n.cChaveNFe = k := by
  simp [chaveExiste, List.any_eq_true]

theorem chaveExiste_insertOrIgnore_iff (db : List Nota) (n : Nota) (k : String) :
    chaveExiste (insertOrIgnore db n) k = true ↔
      chaveExiste db k = true ∨ n.cChaveNFe = k := by
  unfold insertOrIgnore
  split_ifs with h
  · constructor
    · exact Or.inl
    · rintro (hk | rfl)
      · exact hk
      · exact h
  · simp [chaveExiste, List.any_append]

theorem chaveExiste_insertOrIgnoreMany (ns : List Nota) (db : List Nota) (k : String) :
    chaveExiste (insertOrIgnoreMany db ns) k = true ↔
      chaveExiste db k = true ∨ k ∈ ns.map Nota.cChaveNFe := by
  induction ns generalizing db with
  | nil => simp [insertOrIgnoreMany]
  | cons n ns ih =>
    have hstep : insertOrIgnoreMany db (n :: ns) =
        insertOrIgnoreMany (insertOrIgnore db n) ns := rfl
    rw [hstep, ih, chaveExiste_insertOrIgnore_iff]
    simp only [List.map_cons, List.mem_cons]
    constructor
    · rintro ((hk | rfl) | hmem)
      · exact Or.inl hk
      · exact Or.inr (Or.inl rfl)
      · exact Or.inr (Or.inr hmem)
    · rintro (hk | rfl | hmem)
      · exact Or.inl (Or.inl hk)
      · exact Or.inl (Or.inr rfl)
      · exact Or.inr hmem

theorem buscarNota_insertOrIgnore (db : List Nota) (n : Nota) (k : String)
    (h : chaveExiste db k = true) :
    buscarNota (insertOrIgnore db n) k = buscarNota db k := by
  unfold insertOrIgnore
  split_ifs with hex
  · rfl
  · unfold buscarNota
    have hsome : (db.find? (fun n2 => decide (n2.cChaveNFe = k))).isSome := by
      rw [List.find?_isSome]
      obtain ⟨m, hm, he⟩ := (chaveExiste_iff db k).mp h
      exact ⟨m, hm, by simpa using he⟩
    obtain ⟨x, hx⟩ := Option.isSome_iff_exists.mp hsome
    rw [List.find?_append, hx]
    rfl

theorem buscarNota_insertOrIgnoreMany (ns : List Nota) (db : List Nota) (k : String)
    (h : chaveExiste db k = true) :
    buscarNota (insertOrIgnoreMany db ns) k = buscarNota db k := by
  induction ns generalizing db with
  | nil => rfl
  | cons n ns ih =>
    have hstep : insertOrIgnoreMany db (n :: ns) =
        insertOrIgnoreMany (insertOrIgnore db n) ns := rfl
    rw [hstep,
      ih (insertOrIgnore db n) ((chaveExiste_insertOrIgnore_iff db n k).mpr (Or.inl h)),
      buscarNota_insertOrIgnore db n k h]

/-- Claim C2: the batch upsert is an idempotent insert-or-ignore. (a) Inserting
a registro whose key already exists leaves the table completely unchanged (in
particular every non-key field of the existing row), and, being a total
function, never raises. (b) For any batch, the row found for a pre-existing
key afterwards is the row found before — the first write wins. (c) A batch
adds exactly the keys of its valid registros: afterwards a key exists iff it
existed before or belongs to the mapped batch. -/
theorem claim_C2 (db : List Nota) (r : Registro) (regs : List Registro) (k : String) :
    (chaveExiste db (r.cChaveNFe.getD "") = true →
      salvar_varias_notas [r] db = db) ∧
    (chaveExiste db k = true →
      buscarNota (salvar_varias_notas regs db) k = buscarNota db k) ∧
    (chaveExiste (salvar_varias_notas regs db) k = true ↔
      chaveExiste db k = true ∨
        k ∈ ((regs.filter chaveValida_v1).map registroParaNota).map Nota.cChaveNFe) := by
  refine ⟨?_, ?_, ?_⟩
  · intro h
    unfold salvar_varias_notas
    by_cases hv : chaveValida_v1 r = true
    · have hrow : (List.filter chaveValida_v1 [r]).map registroParaNota =
          [registroParaNota r] := by
        simp [hv]
      rw [hrow]
      have hkey : (registroParaNota r).cChaveNFe = r.cChaveNFe.getD "" := rfl
      show insertOrIgnore db (registroParaNota r) = db
      unfold insertOrIgnore
      rw [hkey, if_pos h]
    · have hrow : (List.filter chaveValida_v1 [r]).map registroParaNota = [] := by
        simp [List.filter_cons, hv]
      rw [hrow]
      rfl
  · intro h
    exact buscarNota_insertOrIgnoreMany _ db k h
  · exact chaveExiste_insertOrIgnoreMany _ db k

/-- Witness for C2 at a concrete table and registro: re-inserting the row that
is already stored (same key, different non-key fields) is a no-op. -/
theorem claim_C2_witness :
    salvar_varias_notas
        [{ cChaveNFe := some chaveExemplo, nIdNF := some 999, nIdPedido := none,
           dCan := none, dEmi := some ("2025-07-18"), dInut := none, dReg := none,
           dSaiEnt := none, hEmi := none, hSaiEnt := none, mod := none,
           nNF := some ("8"), serie := none, tpAmb := none, tpNF := none,
           cnpj_cpf := none, cRazao := none, vNF := none }]
        [notaValidaPendente] =
      [notaValidaPendente] :=
  (claim_C2 [notaValidaPendente] _ [] ("")).1 (by decide)

/-! ## Pending queries (Claim C6) -/

/-- Claim C6, counterexample: a row that is pending (`xml_baixado = 0`) but has
a NULL `nIdNF` is not returned by the async downloader's pending query, whose
WHERE clause adds `nIdNF IS NOT NULL` to the downloaded flag. -/
theorem claim_C6_counterexample :
    notaSemIdNF.xml_baixado = false ∧
    pendentes_extrator_async [notaSemIdNF] = [] := by
  refine ⟨by decide, by decide⟩

/-- Claim C6 (amended): the v1 parallel downloader's query and
`obter_registros_pendentes` return exactly the rows with `downloaded = false`;
the async downloader's query (`baixar_xmls`) returns exactly the rows with
`downloaded = false` AND a non-null external id `nIdNF`. -/
theorem claim_C6_amended (db : List Nota) (n : Nota) :
    (n ∈ pendentes_baixar_parallel db ↔ n ∈ db ∧ n.xml_baixado = false) ∧
    (n ∈ obter_registros_pendentes db ↔ n ∈ db ∧ n.xml_baixado = false) ∧
    (n ∈ pendentes_extrator_async db ↔
      n ∈ db ∧ n.xml_baixado = false ∧ n.nIdNF ≠ none) := by
  refine ⟨?_, ?_, ?_⟩ <;>
    simp [pendentes_baixar_parallel, obter_registros_pendentes,
      pendentes_extrator_async, List.mem_filter, and_assoc]

/-! ## Invalid-record maintenance (Claim C7) -/

theorem mem_insOrdenada (a s : String) (l : List String) :
    a ∈ insOrdenada s l ↔ a = s ∨ a ∈ l := by
  induction l with
  | nil => simp [insOrdenada]
  | cons x xs ih =>
    unfold insOrdenada
    split_ifs with h1 h2
    · simp [List.mem_cons]
    · subst h2
      simp only [List.mem_cons]
      tauto
    · simp only [List.mem_cons, ih]
      tauto

theorem mem_ordenarDistintos (a : String) (l : List String) :
    a ∈ ordenarDistintos l ↔ a ∈ l := by
  induction l with
  | nil => simp [ordenarDistintos]
  | cons x xs ih =>
    have hstep : ordenarDistintos (x :: xs) = insOrdenada x (ordenarDistintos xs) := rfl
    rw [hstep, mem_insOrdenada, ih, List.mem_cons]

/-- Claim C7, counterexample: on a table holding one structurally invalid row
(dash key) and one fully valid pending row of the same emission date, the
maintenance function returns the affected date but deletes nothing — the
invalid row is still stored — while the cleanup step for that date deletes
every pending row of the date, including the valid one. -/
theorem claim_C7_counterexample :
    registroInvalido notaInvalida = true ∧
    registroInvalido notaValidaPendente = false ∧
    (marcar_registros_invalidos_e_listar_dias [notaInvalida, notaValidaPendente]).1 =
      [("2025-07-17")] ∧
    (marcar_registros_invalidos_e_listar_dias [notaInvalida, notaValidaPendente]).2 =
      [notaInvalida, notaValidaPendente] ∧
    (limpar_registros_invalidos_reprocessados [notaInvalida, notaValidaPendente]
        [("2025-07-17")]).2 = [] := by
  refine ⟨by decide, by decide, by decide, by decide, by decide⟩

/-- Claim C7 (amended): the maintenance pass deletes nothing — it returns the
distinct normalized emission dates of the rows missing a mandatory field and
leaves the table unchanged; the separate cleanup step then deletes exactly the
pending (`downloaded = false`) rows whose emission date is in the given list,
regardless of field validity. -/
theorem claim_C7_amended (db : List Nota) (dias : List String) (x : String) (n : Nota) :
    (marcar_registros_invalidos_e_listar_dias db).2 = db ∧
    (x ∈ (marcar_registros_invalidos_e_listar_dias db).1 ↔
      ∃ n2 ∈ db, registroInvalido n2 = true ∧ ∃ s, n2.dEmi = some s ∧ s ≠ "" ∧
        normalizar_data (some (String.mk (pyStrip s.toList))) = some x) ∧
    (n ∈ (limpar_registros_invalidos_reprocessados db dias).2 ↔
      n ∈ db ∧ ¬(n.xml_baixado = false ∧ ∃ s, n.dEmi = some s ∧ s ∈ dias)) := by
  refine ⟨rfl, ?_, ?_⟩
  · unfold marcar_registros_invalidos_e_listar_dias
    rw [mem_ordenarDistintos]
    unfold diasInvalidos
    simp only [List.mem_filterMap, List.mem_filter]
    constructor
    · rintro ⟨n2, ⟨hmem, hinv⟩, hf⟩
      refine ⟨n2, hmem, hinv, ?_⟩
      unfold diaDeNota at hf
      cases hd : n2.dEmi with
      | none => rw [hd] at hf; exact absurd hf (by simp)
      | some s =>
        rw [hd] at hf
        simp only [] at hf
        by_cases hs : s = ""
        · rw [if_pos hs] at hf
          exact absurd hf (by simp)
        · rw [if_neg hs] at hf
          exact ⟨s, rfl, hs, hf⟩
    · rintro ⟨n2, hmem, hinv, s, hd, hs, hnorm⟩
      refine ⟨n2, ⟨hmem, hinv⟩, ?_⟩
      unfold diaDeNota
      rw [hd]
      simp only [if_neg hs]
      exact hnorm
  · have hiff : apagarPorDia dias n = true ↔
        n.xml_baixado = false ∧ ∃ s, n.dEmi = some s ∧ s ∈ dias := by
      unfold apagarPorDia
      cases hs : n.dEmi with
      | none => simp
      | some s => simp [List.any_eq_true]
    unfold limpar_registros_invalidos_reprocessados
    by_cases hd : dias = []
    · subst hd
      simp only [if_pos rfl]
      constructor
      · intro hmem
        refine ⟨hmem, ?_⟩
        rintro ⟨_, s, _, hsin⟩
        exact List.not_mem_nil s hsin
      · exact fun h => h.1
    · rw [if_neg hd]
      simp only [List.mem_filter]
      constructor
      · rintro ⟨hmem, h2⟩
        refine ⟨hmem, fun hx => ?_⟩
        rw [hiff.mpr hx] at h2
        exact Bool.noConfusion h2
      · rintro ⟨hmem, h2⟩
        refine ⟨hmem, ?_⟩
        cases happ : apagarPorDia dias n with
        | false => rfl
        | true => exact absurd (hiff.mp happ) h2

/-! ## Filesystem model and path resolution (Claims C8, C3, C1, C4)

A path is a directory (list of components) plus a file name; the filesystem
records the existing directories and the files with their text contents. -/

structure ArquivoPath where
  dir : List String
  nome : String
deriving DecidableEq, Repr

structure FS where
  dirs : List (List String)
  files : List (ArquivoPath × String)
deriving DecidableEq, Repr

/-- Rendering of a path as the string stored in `caminho_arquivo`
(`str(caminho.resolve())`; resolution against the working directory is not
modelled, the rendered relative path stands for the absolute one). -/
def pathStr (p : ArquivoPath) : String :=
  String.intercalate ("/") (p.dir ++ [p.nome])

def FS.lerArquivo (fs : FS) (p : ArquivoPath) : Option String :=
  (fs.files.find? (fun e => decide (e.1 = p))).map (fun e => e.2)

/-- `Path.exists()` for a file. -/
def FS.existeArquivo (fs : FS) (p : ArquivoPath) : Bool :=
  (fs.lerArquivo p).isSome

/-- `Path.exists()` for a directory. -/
def FS.dirExiste (fs : FS) (d : List String) : Bool :=
  fs.dirs.any (fun x => decide (x = d))

/-- `caminho.write_text(...)`: overwrite or create. -/
def FS.escreverArquivo (fs : FS) (p : ArquivoPath) (conteudo : String) : FS :=
  { fs with files := fs.files.filter (fun e => !decide (e.1 = p)) ++ [(p, conteudo)] }

/-- `pasta.mkdir(parents=True, exist_ok=True)`. -/
def FS.mkdirs (fs : FS) (d : List String) : FS :=
  if fs.dirExiste d then fs else { fs with dirs := fs.dirs ++ [d] }

/-- Python f-string rendering of a value that may be `None`. -/
def optStr : Option String → String
  | none => "None"
  | some s => s

/-- `descobrir_todos_xmls` (src/src/utils.py): empty when the directory does
not exist, otherwise `rglob("*.xml")` — every `.xml` file at or below it, in
filesystem enumeration order. -/
def descobrir_todos_xmls (fs : FS) (d : List String) : List ArquivoPath :=
  if fs.dirExiste d then
    (fs.files.map (fun e => e.1)).filter
      (fun p => d.isPrefixOf p.dir && (String.toList (".xml")).isSuffixOf p.nome.toList)
  else []

/-- `normalizar_chave_nfe` (src/src/utils.py): strip, keep only digits,
truncate to 44 characters (shorter keys are kept as they are). -/
def normalizar_chave_nfe (chave : String) : String :=
  if chave = "" then ""
  else
    let limpa := (pyStrip chave.toList).filter isDigitChar
    if 44 ≤ limpa.length then String.mk (limpa.take 44) else String.mk limpa

/-- `gerar_nome_arquivo_xml` (src/src/utils.py) on an already-parsed date
(the `datetime` argument path used by v3 `gerar_xml_path`):
`{num_nfe.strip()}_{strftime("%Y%m%d")}_{normalized key}.xml`. -/
def gerar_nome_arquivo_xml (chave : String) (y m d : Nat) (numNfe : String) : String :=
  String.mk (pyStrip numNfe.toList) ++ ("_") ++ String.mk (fmtCompactYmd y m d) ++
    ("_") ++ normalizar_chave_nfe chave ++ (".xml")

/-- The canonical day directory `{base}/{%Y}/{%m}/{%d}`. -/
def pastaDia (baseDir : String) (y m d : Nat) : List String :=
  [baseDir, String.mk (fmtY y), String.mk (pad2 m), String.mk (pad2 d)]

/-- v1 `gerar_xml_path` (src/utils.py): parse `%d/%m/%Y`, then build
`{num}_{%Y%m%d}_{chave}.xml` under the day directory. A pure function of its
four inputs — it never touches the filesystem (no `FS` argument exists to
inspect); `none` models the `ValueError` raised for an unparseable date. -/
def gerar_xml_path_v1 (chave dataEmissao numNfe baseDir : String) :
    Option (List String × ArquivoPath) :=
  match strptime_dmY dataEmissao.toList with
  | none => none
  | some (y, m, d) =>
    let nome := numNfe ++ ("_") ++ String.mk (fmtCompactYmd y m d) ++ ("_") ++
      chave ++ (".xml")
    some (pastaDia baseDir y m d, ⟨pastaDia baseDir y m d, nome⟩)

/-- The body of v3 `gerar_xml_path` after the date has been parsed: canonical
path when the day directory is absent, otherwise exact-name search over the
discovered files, then substring-of-key search (`chave_limpa in xml_path.name`),
then the canonical fallback. -/
def gerar_xml_path_nucleo (fs : FS) (chave numNfe baseDir : String)
    (y m d : Nat) : List String × ArquivoPath :=
  let nome := gerar_nome_arquivo_xml chave y m d numNfe
  let base := pastaDia baseDir y m d
  if !fs.dirExiste base then (base, ⟨base, nome⟩)
  else
    let xmls := descobrir_todos_xmls fs base
    match xmls.find? (fun p => decide (p.nome = nome)) with
    | some p => (p.dir, p)
    | none =>
      match xmls.find? (fun p =>
          decide (List.IsInfix (pyStrip chave.toList) p.nome.toList)) with
      | some p => (p.dir, p)
      | none => (base, ⟨base, nome⟩)

/-- v3 `gerar_xml_path` (src/src/utils.py): validates the inputs, normalizes
the date, and then consults the disk through `gerar_xml_path_nucleo`.
`none` models the wrapped `ValueError`. -/
def gerar_xml_path (fs : FS) (chave dEmi numNfe baseDir : String) :
    Option (List String × ArquivoPath) :=
  if chave = "" || dEmi = "" || numNfe = "" then none
  else
    (normalizar_data (some dEmi)).bind (fun dn =>
      (strptime_Ymd dn.toList).map (fun t =>
        gerar_xml_path_nucleo fs chave numNfe baseDir t.1 t.2.1 t.2.2))

/-- `caminho.exists() and caminho.stat().st_size > 0`: the file is present
with a positive byte size (a non-empty text). -/
def FS.arquivoNaoVazio (fs : FS) (p : ArquivoPath) : Bool :=
  match fs.lerArquivo p with
  | none => false
  | some c => decide (0 < c.length)

/-- The immediate sub-directories of `d` (`item for item in d.iterdir() if
item.is_dir()`). -/
def FS.subdirs (fs : FS) (d : List String) : List (List String) :=
  fs.dirs.filter (fun e =>
    decide (e.dropLast = d) && decide (e.length = d.length + 1))

/-- `sorted(subpastas, key=lambda x: x.name)[0]`: the entry with the smallest
name, the earliest one on ties (Python sort is stable). -/
def primeiraSubpasta (l : List (List String)) : Option (List String) :=
  l.foldl (fun acc e =>
    match acc with
    | none => some e
    | some a => if e.getLastD ("") < a.getLastD ("") then some e else acc) none

/-- The body of `gerar_xml_path_otimizado` (src/src/utils.py) after the date
has been parsed: canonical path when the day directory is absent or holds no
`.xml` files; otherwise exact-name search, then key-and-number substring
search, then key substring search over the discovered files; with no match,
the first sub-folder by name (when one exists) is chosen for creation, else
the canonical path. -/
def gerar_xml_path_otimizado_nucleo (fs : FS) (chave numNfe baseDir : String)
    (y m d : Nat) : List String × ArquivoPath :=
  let nome := gerar_nome_arquivo_xml chave y m d numNfe
  let base := pastaDia baseDir y m d
  if !fs.dirExiste base then (base, ⟨base, nome⟩)
  else
    let xmls := descobrir_todos_xmls fs base
    if xmls = [] then (base, ⟨base, nome⟩)
    else
      let chaveLimpa := pyStrip chave.toList
      let numLimpo := pyStrip numNfe.toList
      match xmls.find? (fun p => decide (p.nome = nome)) with
      | some p => (p.dir, p)
      | none =>
        match xmls.find? (fun p =>
            decide (List.IsInfix chaveLimpa p.nome.toList) &&
              decide (List.IsInfix numLimpo p.nome.toList)) with
        | some p => (p.dir, p)
        | none =>
          match xmls.find? (fun p =>
              decide (List.IsInfix chaveLimpa p.nome.toList)) with
          | some p => (p.dir, p)
          | none =>
            match primeiraSubpasta (fs.subdirs base) with
            | some sub => (sub, ⟨sub, nome⟩)
            | none => (base, ⟨base, nome⟩)

/-- `gerar_xml_path_otimizado` (src/src/utils.py): same validation and date
normalization as v3 `gerar_xml_path`, then the recursive-discovery body. -/
def gerar_xml_path_otimizado (fs : FS) (chave dEmi numNfe baseDir : String) :
    Option (List String × ArquivoPath) :=
  if chave = "" || dEmi = "" || numNfe = "" then none
  else
    (normalizar_data (some dEmi)).bind (fun dn =>
      (strptime_Ymd dn.toList).map (fun t =>
        gerar_xml_path_otimizado_nucleo fs chave numNfe baseDir t.1 t.2.1 t.2.2))

/-- The day folder of the sample key and the file name the resolver builds. -/
def pastaDiaExemplo : List String := [("resultado"), ("2025"), ("07"), ("17")]

/-- A filesystem where the sample record's file was relocated by the
compaction step into the numbered sub-folder `17_pasta_1` of the day folder. -/
def fsComSubpasta : FS :=
  { dirs := [pastaDiaExemplo],
    files := [(⟨pastaDiaExemplo ++ [("17_pasta_1")],
               ("123_20250717_") ++ chaveExemplo ++ (".xml")⟩, ("<xml/>"))] }

/-- The empty filesystem. -/
def fsVazio : FS := { dirs := [], files := [] }

/-- Claim C8, counterexample: v3 `resolve` is not a pure function of
`(key, date, seq, base)` — with identical four inputs, an empty disk yields
the canonical day-folder path while a disk on which the compaction step moved
the file into a numbered sub-folder yields that sub-folder's path. -/
theorem claim_C8_counterexample :
    gerar_xml_path fsVazio chaveExemplo ("17/07/2025") ("123") ("resultado") =
      some (pastaDiaExemplo,
        ⟨pastaDiaExemplo, ("123_20250717_") ++ chaveExemplo ++ (".xml")⟩) ∧
    gerar_xml_path fsComSubpasta chaveExemplo ("17/07/2025") ("123") ("resultado") =
      some (pastaDiaExemplo ++ [("17_pasta_1")],
        ⟨pastaDiaExemplo ++ [("17_pasta_1")],
         ("123_20250717_") ++ chaveExemplo ++ (".xml")⟩) ∧
    gerar_xml_path fsVazio chaveExemplo ("17/07/2025") ("123") ("resultado") ≠
      gerar_xml_path fsComSubpasta chaveExemplo ("17/07/2025") ("123") ("resultado") := by
  refine ⟨by decide, by decide, by decide⟩

/-- Claim C8 (amended): path resolution is deterministic in its four inputs
plus the current disk state. The v1 resolver is a pure function of the four
inputs (it takes no filesystem at all and always yields the canonical pair),
and the v3 resolver depends on the disk only through its discovery search:
whenever the day directory is absent, any two disk states give the same,
canonical, (dir, path) pair. -/
theorem claim_C8_amended (fs1 fs2 : FS) (chave dEmi numNfe baseDir dn : String)
    (y m d : Nat)
    (h1 : normalizar_data (some dEmi) = some dn)
    (h2 : strptime_Ymd dn.toList = some (y, m, d))
    (hd1 : fs1.dirExiste (pastaDia baseDir y m d) = false)
    (hd2 : fs2.dirExiste (pastaDia baseDir y m d) = false) :
    gerar_xml_path fs1 chave dEmi numNfe baseDir =
      gerar_xml_path fs2 chave dEmi numNfe baseDir ∧
    (chave ≠ "" → numNfe ≠ "" →
      gerar_xml_path fs1 chave dEmi numNfe baseDir =
        some (pastaDia baseDir y m d,
          ⟨pastaDia baseDir y m d, gerar_nome_arquivo_xml chave y m d numNfe⟩)) := by
  have hne : dEmi ≠ "" := by
    intro hcontra
    rw [hcontra] at h1
    simp [normalizar_data] at h1
  constructor
  · unfold gerar_xml_path
    by_cases hc : (chave = "" || dEmi = "" || numNfe = "") = true
    · rw [if_pos hc, if_pos hc]
    · rw [if_neg hc, if_neg hc, h1, Option.some_bind, Option.some_bind, h2,
        Option.map_some', Option.map_some']
      unfold gerar_xml_path_nucleo
      simp only [hd1, hd2, Bool.not_false, if_pos]
  · intro hchave hnum
    unfold gerar_xml_path
    rw [if_neg (by simp [hchave, hne, hnum]), h1, Option.some_bind, h2,
      Option.map_some']
    unfold gerar_xml_path_nucleo
    simp only [hd1, Bool.not_false, if_pos]

/-- Witness for the amended C8 theorem: two concrete empty-day-folder disks. -/
theorem claim_C8_amended_witness :
    gerar_xml_path fsVazio chaveExemplo ("17/07/2025") ("123") ("resultado") =
      gerar_xml_path { dirs := [[("outra")]], files := [] } chaveExemplo
        ("17/07/2025") ("123") ("resultado") :=
  (claim_C8_amended fsVazio { dirs := [[("outra")]], files := [] } chaveExemplo
    ("17/07/2025") ("123") ("resultado") ("2025-07-17") 2025 7 17
    (by decide) (by decide) (by decide) (by decide)).1

/-! ## The reconciler (Claim C3) -/

/-- `construir_caminho_xml` (src/verificador_xmls.py): the expected path of a
record's file, from `strptime(dEmi, "%d/%m/%Y")` (a NULL date raises and is
caught, yielding `None`) and the f-string file name (a NULL `nNF` renders as
the text `None`). -/
def construir_caminho_xml (chave : String) (dataEmissao : Option String)
    (numNfe : Option String) : Option ArquivoPath :=
  match dataEmissao with
  | none => none
  | some ds =>
    match strptime_dmY ds.toList with
    | none => none
    | some (y, m, d) =>
      some ⟨pastaDia ("resultado") y m d,
        optStr numNfe ++ ("_") ++ String.mk (fmtCompactYmd y m d) ++ ("_") ++
          chave ++ (".xml")⟩

/-- v1 `verificar_arquivo_no_disco` (src/verificador_xmls.py): the record's
key when its expected file exists on disk (`caminho.exists()`), else `None`.
The per-record helper is well defined on its own; the v1 orchestrator that
would call it aborts before doing so (see
`verificar_arquivos_existentes`). -/
def chaveSeArquivoExiste (fs : FS) (n : Nota) : Option String :=
  match construir_caminho_xml n.cChaveNFe n.dEmi n.nNF with
  | none => none
  | some p => if fs.existeArquivo p then some n.cChaveNFe else none

/-- `atualizar_status_no_banco` (src/src/verificador_xmls.py) — also the
UPDATE loop of v1 `verificar_arquivos_existentes`:
`UPDATE notas SET xml_baixado = 1 WHERE cChaveNFe = ?` for every collected
key. Note that no other column is written: `caminho_arquivo` keeps its
previous value. -/
def atualizar_status_no_banco (chaves : List String) (db : List Nota) : List Nota :=
  db.map (fun n =>
    if chaves.any (fun c => decide (c = n.cChaveNFe)) then
      { n with xml_baixado := true }
    else n)

/-- v1 `verificar_arquivos_existentes` (src/verificador_xmls.py): intended to
select the pending rows, check each expected file on disk, and flip
`xml_baixado` for the keys found — but the body references `os.cpu_count()`
(line 60) while the module never imports `os`, so every invocation raises
`NameError` inside the `try`, before any key is collected or any UPDATE runs;
the blanket `except` at the end logs the failure and returns. The store is
therefore always left unchanged. -/
def verificar_arquivos_existentes (fs : FS) (db : List Nota) : List Nota :=
  let _ := fs
  db

/-- v3 `verificar_arquivo_no_disco` (src/src/verificador_xmls.py,
`USE_OPTIMIZED_VERSION = True`): skip rows with missing fields, resolve the
path through `gerar_xml_path_otimizado` (an exception is caught and yields
`None`), and return the key when the file exists with a positive size. -/
def verificar_arquivo_no_disco (fs : FS) (n : Nota) : Option String :=
  match n.dEmi, n.nNF with
  | some ds, some num =>
    if n.cChaveNFe = "" || ds = "" || num = "" then none
    else
      match gerar_xml_path_otimizado fs n.cChaveNFe ds num ("resultado") with
      | none => none
      | some pr => if fs.arquivoNaoVazio pr.2 then some n.cChaveNFe else none
  | _, _ => none

/-- v3 `verificar_arquivos_existentes` (src/src/verificador_xmls.py):
`SELECT cChaveNFe, dEmi, nNF FROM notas WHERE xml_baixado = 0`, then the
disk check per row; returns the keys with a valid file (the orchestrator
`verificar` then passes them to `atualizar_status_no_banco`). -/
def verificar_arquivos_existentes_v3 (fs : FS) (db : List Nota) : List String :=
  (db.filter (fun n => !n.xml_baixado)).filterMap (verificar_arquivo_no_disco fs)

/-- A disk holding exactly the sample record's expected file, non-empty. -/
def fsComArquivo : FS :=
  { dirs := [pastaDiaExemplo],
    files := [(⟨pastaDiaExemplo,
               ("7_20250717_") ++ chaveExemplo ++ (".xml")⟩, ("<xml/>"))] }

/-- Claim C3, counterexample: the reachable reconciler path (the v3 pipeline:
`verificar_arquivos_existentes` collecting keys through
`gerar_xml_path_otimizado`, then `atualizar_status_no_banco`) violates the
`downloaded ⇒ filePath non-null` invariant. On a store holding one pending
row whose non-empty file sits on disk, the collection returns its key and the
update marks the row downloaded but stores no path: the resulting row has
`xml_baixado = true` and `caminho_arquivo = NULL`. -/
theorem claim_C3_counterexample :
    verificar_arquivos_existentes_v3 fsComArquivo [notaPendenteBr] =
      [chaveExemplo] ∧
    (atualizar_status_no_banco
        (verificar_arquivos_existentes_v3 fsComArquivo [notaPendenteBr])
        [notaPendenteBr]).map
      (fun n => (n.xml_baixado, n.caminho_arquivo)) = [(true, none)] := by
  refine ⟨by decide, by decide⟩

/-- Claim C3 (amended): the v1 reconciler never updates anything — its body
references `os.cpu_count()` without importing `os`, so it aborts inside its
blanket `except` with the store unchanged. The working (v3) reconciler marks
a pending record downloaded only after confirming its resolved file exists on
disk with a positive size, but it does not store the discovered path —
`caminho_arquivo` (and every other column except the flag) keeps its previous
value, so a reconciled row has `downloaded = true` with a NULL `filePath`
unless a downloader had already stored one. Formally: the v1 pass is the
identity on the store; every key the v3 pass collects belongs to a pending
row whose `gerar_xml_path_otimizado`-resolved file is non-empty on disk; and
the update leaves every column except `xml_baixado` unchanged. -/
theorem claim_C3_amended (fs : FS) (db : List Nota) (c : String)
    (chaves : List String) (n : Nota) :
    (verificar_arquivos_existentes fs db = db) ∧
    (c ∈ verificar_arquivos_existentes_v3 fs db →
      ∃ n0 ∈ db, n0.xml_baixado = false ∧ n0.cChaveNFe = c ∧
        ∃ ds num pasta caminho, n0.dEmi = some ds ∧ n0.nNF = some num ∧
          gerar_xml_path_otimizado fs n0.cChaveNFe ds num ("resultado") =
            some (pasta, caminho) ∧ fs.arquivoNaoVazio caminho = true) ∧
    (n ∈ atualizar_status_no_banco chaves db →
      ∃ n0 ∈ db, n.caminho_arquivo = n0.caminho_arquivo ∧
        n.cChaveNFe = n0.cChaveNFe ∧ n.xml_vazio = n0.xml_vazio ∧
        n.baixado_novamente = n0.baixado_novamente ∧
        (n.xml_baixado = true → n0.xml_baixado = true ∨ n0.cChaveNFe ∈ chaves)) := by
  refine ⟨rfl, ?_, ?_⟩
  · intro hc
    unfold verificar_arquivos_existentes_v3 at hc
    rw [List.mem_filterMap] at hc
    obtain ⟨n0, hmem, hf⟩ := hc
    rw [List.mem_filter] at hmem
    obtain ⟨hmem, hpend⟩ := hmem
    unfold verificar_arquivo_no_disco at hf
    cases hdE : n0.dEmi with
    | none =>
      rw [hdE] at hf
      exact absurd hf (by simp)
    | some ds =>
      cases hdN : n0.nNF with
      | none =>
        rw [hdE, hdN] at hf
        exact absurd hf (by simp)
      | some num =>
        rw [hdE, hdN] at hf
        simp only [] at hf
        split_ifs at hf with hvalid
        cases hg : gerar_xml_path_otimizado fs n0.cChaveNFe ds num
            ("resultado") with
        | none =>
          rw [hg] at hf
          exact absurd hf (by simp)
        | some pr =>
          obtain ⟨pasta, caminho⟩ := pr
          rw [hg] at hf
          simp only [] at hf
          split_ifs at hf with hvz
          cases hf
          exact ⟨n0, hmem, by simpa using hpend, rfl, ds, num,
            pasta, caminho, hdE, hdN, hg, hvz⟩
  · intro hn
    unfold atualizar_status_no_banco at hn
    rw [List.mem_map] at hn
    obtain ⟨n0, hmem, hf⟩ := hn
    by_cases hin : chaves.any (fun c2 => decide (c2 = n0.cChaveNFe)) = true
    · rw [if_pos hin] at hf
      subst hf
      refine ⟨n0, hmem, rfl, rfl, rfl, rfl, fun _ => Or.inr ?_⟩
      obtain ⟨c2, hc2, he⟩ := List.any_eq_true.mp hin
      have hce : c2 = n0.cChaveNFe := by simpa using he
      exact hce ▸ hc2
    · rw [if_neg hin] at hf
      subst hf
      exact ⟨n0, hmem, rfl, rfl, rfl, rfl, fun h => Or.inl h⟩

/-- Witness for the amended C3 theorem: the concrete v3 key collection. -/
theorem claim_C3_amended_witness :
    ∃ n0 ∈ [notaPendenteBr], n0.xml_baixado = false ∧
      n0.cChaveNFe = chaveExemplo ∧
      ∃ ds num pasta caminho, n0.dEmi = some ds ∧ n0.nNF = some num ∧
        gerar_xml_path_otimizado fsComArquivo n0.cChaveNFe ds num
            ("resultado") = some (pasta, caminho) ∧
        fsComArquivo.arquivoNaoVazio caminho = true :=
  (claim_C3_amended fsComArquivo [notaPendenteBr] chaveExemplo []
    notaBase).2.1 (by decide)

/-! ## Download tasks (Claims C1 and C4) -/

/-- The world a download task acts on: the store and the disk. -/
structure World where
  db : List Nota
  fs : FS
deriving DecidableEq, Repr

/-- The oracle inputs of one download task. `busca` is the outcome of the
`ObterNfe` call: `none` when the request raises (HTTP error after retries,
timeout, missing body), `some xml` the entity-decoded document text
(`html.unescape(data["cXmlNfe"])`). `escritaFalha` makes `write_text`
raise. -/
structure TaskEnv where
  busca : Option String
  escritaFalha : Bool
deriving DecidableEq, Repr

/-- v1 `atualizar_status_xml` (src/utils.py): guard on an empty key, then
`UPDATE notas SET xml_baixado = 1, caminho_arquivo = ?, baixado_novamente = ?,
xml_vazio = ? WHERE cChaveNFe = ?`, with `xml_vazio` computed from the
document text (`1 if xml_str.strip() == '' else 0`). -/
def atualizar_status_xml_v1 (db : List Nota) (chave : String)
    (caminho : ArquivoPath) (xmlStr : String) (rebaixado : Bool) : List Nota :=
  if chave = "" then db
  else
    db.map (fun n =>
      if n.cChaveNFe = chave then
        { n with
            xml_baixado := true
            caminho_arquivo := some (pathStr caminho)
            baixado_novamente := rebaixado
            xml_vazio := decide (pyStrip xmlStr.toList = []) }
      else n)

/-- v3 `atualizar_status_xml` (src/src/utils.py): guard on an empty key, then
return without updating unless the file exists on disk and its rendered path
is non-empty; the UPDATE sets `xml_baixado = 1, caminho_arquivo = ?,
xml_vazio = ?` where `xml_vazio` is a caller-supplied parameter defaulting
to 0 — the `xml_str` argument is received but never consulted. -/
def atualizar_status_xml_v3 (fs : FS) (db : List Nota) (chave : String)
    (caminho : ArquivoPath) (xmlStr : String) (rebaixado : Bool)
    (xmlVazio : Bool) : List Nota :=
  if chave = "" then db
  else if !fs.existeArquivo caminho then db
  else if pathStr caminho = "" then db
  else
    db.map (fun n =>
      if n.cChaveNFe = chave then
        { n with
            xml_baixado := true
            caminho_arquivo := some (pathStr caminho)
            xml_vazio := xmlVazio }
      else n)

/-- The v1 resolved path of a record: the f-string file name
`{num}_{%Y%m%d}_{chave}.xml` under the canonical day directory. -/
def caminhoNota (chave : String) (y m d : Nat) (nNF : Option String) :
    ArquivoPath :=
  ⟨pastaDia ("resultado") y m d,
   optStr nNF ++ ("_") ++ String.mk (fmtCompactYmd y m d) ++ ("_") ++
     chave ++ (".xml")⟩

/-- `baixar_uma_nota` (src/baixar_parallel.py) for the row
`(nIdNF, chave, dEmi, nNF)`: resolve the path (a bad or NULL date raises and
is caught, leaving the world unchanged), create the day directory, note
whether the file pre-exists, fetch, write, and only then update the store;
any exception is caught and yields `none`. Returns the new world and the key
on success. -/
def baixar_uma_nota (chave : String) (dEmi : Option String)
    (nNF : Option String) (env : TaskEnv) (w : World) : World × Option String :=
  match dEmi with
  | none => (w, none)
  | some ds =>
    match strptime_dmY ds.toList with
    | none => (w, none)
    | some (y, m, d) =>
      let caminho := caminhoNota chave y m d nNF
      let fs1 := w.fs.mkdirs (pastaDia ("resultado") y m d)
      let rebaixado := fs1.existeArquivo caminho
      match env.busca with
      | none => ({ db := w.db, fs := fs1 }, none)
      | some xml =>
        if env.escritaFalha then ({ db := w.db, fs := fs1 }, none)
        else
          let fs2 := fs1.escreverArquivo caminho xml
          ({ db := atualizar_status_xml_v1 w.db chave caminho xml rebaixado,
             fs := fs2 }, some chave)

/-- `baixar_xml_individual` (src/src/extrator_async.py): resolve through v3
`gerar_xml_path` (NULL fields raise inside it and are caught), create the
directory, fetch through the retrying client, write the decoded text, then
call `atualizar_status_xml` — passing `rebaixado` positionally and leaving
the `xml_vazio` parameter at its default 0. Every exception is caught. -/
def baixar_xml_individual (chave : String) (dEmi : Option String)
    (nNF : Option String) (env : TaskEnv) (w : World) : World :=
  match dEmi, nNF with
  | some ds, some num =>
    match gerar_xml_path w.fs chave ds num ("resultado") with
    | none => w
    | some (pasta, caminho) =>
      let fs1 := w.fs.mkdirs pasta
      match env.busca with
      | none => { db := w.db, fs := fs1 }
      | some xml =>
        if env.escritaFalha then { db := w.db, fs := fs1 }
        else
          let fs2 := fs1.escreverArquivo caminho xml
          { db := atualizar_status_xml_v3 fs2 w.db chave caminho xml
              (fs1.existeArquivo caminho) false
            fs := fs2 }
  | _, _ => w

theorem lerArquivo_escreverArquivo (fs : FS) (p : ArquivoPath) (c : String) :
    (fs.escreverArquivo p c).lerArquivo p = some c := by
  unfold FS.escreverArquivo FS.lerArquivo
  rw [List.find?_append]
  have hnone : (fs.files.filter (fun e => !decide (e.1 = p))).find?
      (fun e => decide (e.1 = p)) = none := by
    rw [List.find?_eq_none]
    intro e he
    rw [List.mem_filter] at he
    simpa using he.2
  rw [hnone]
  simp [List.find?]

/-- Claim C1: a record transitions to `downloaded = true` only after its
document has been written to the resolved path. (i) If the fetch raises, the
store is unchanged. (ii) If the file write raises, the store is unchanged.
(iii) On success, the final filesystem holds the fetched text at the resolved
path and the store change is exactly the post-write status update for that
path. (iv) Any row the v1 status update touches carries the resolved path.
(v) The v3 status update re-checks the disk: with no file at the path it
leaves the store unchanged. (vi) The v3 async task likewise leaves the store
unchanged when the fetch raises. -/
theorem claim_C1 (chave : String) (dEmi nNF : Option String) (env : TaskEnv)
    (w : World) (db2 : List Nota) (fs2 : FS) (chave2 : String)
    (p2 : ArquivoPath) (xml2 : String) (reb2 vz2 : Bool) (n2 : Nota) :
    (env.busca = none → (baixar_uma_nota chave dEmi nNF env w).1.db = w.db) ∧
    (env.escritaFalha = true →
      (baixar_uma_nota chave dEmi nNF env w).1.db = w.db) ∧
    (∀ ds y m d xml, dEmi = some ds → strptime_dmY ds.toList = some (y, m, d) →
      env.busca = some xml → env.escritaFalha = false →
      (baixar_uma_nota chave dEmi nNF env w).1.fs.lerArquivo
          (caminhoNota chave y m d nNF) = some xml ∧
      (baixar_uma_nota chave dEmi nNF env w).1.db =
        atualizar_status_xml_v1 w.db chave (caminhoNota chave y m d nNF) xml
          ((w.fs.mkdirs (pastaDia ("resultado") y m d)).existeArquivo
            (caminhoNota chave y m d nNF))) ∧
    (n2 ∈ atualizar_status_xml_v1 db2 chave2 p2 xml2 reb2 →
      n2 ∈ db2 ∨
        (n2.xml_baixado = true ∧ n2.caminho_arquivo = some (pathStr p2))) ∧
    (fs2.existeArquivo p2 = false →
      atualizar_status_xml_v3 fs2 db2 chave2 p2 xml2 reb2 vz2 = db2) ∧
    (env.busca = none → (baixar_xml_individual chave dEmi nNF env w).db = w.db) := by
  obtain ⟨busca, falha⟩ := env
  refine ⟨?_, ?_, ?_, ?_, ?_, ?_⟩
  · intro h
    cases h
    unfold baixar_uma_nota
    cases dEmi with
    | none => rfl
    | some ds =>
      cases hs : strptime_dmY ds.data with
      | none => simp [hs]
      | some t =>
        obtain ⟨y, m, d⟩ := t
        simp [hs]
  · intro h
    cases h
    unfold baixar_uma_nota
    cases dEmi with
    | none => rfl
    | some ds =>
      cases hs : strptime_dmY ds.data with
      | none => simp [hs]
      | some t =>
        obtain ⟨y, m, d⟩ := t
        cases busca with
        | none => simp [hs]
        | some xml => simp [hs]
  · intro ds y m d xml hds hs hb hf
    subst hds
    cases hb
    cases hf
    unfold baixar_uma_nota
    simp only [hs]
    exact ⟨lerArquivo_escreverArquivo _ _ _, rfl⟩
  · intro hn
    unfold atualizar_status_xml_v1 at hn
    split_ifs at hn with h1
    · exact Or.inl hn
    · rw [List.mem_map] at hn
      obtain ⟨n0, hmem, hf⟩ := hn
      by_cases hc : n0.cChaveNFe = chave2
      · rw [if_pos hc] at hf
        subst hf
        exact Or.inr ⟨rfl, rfl⟩
      · rw [if_neg hc] at hf
        subst hf
        exact Or.inl hmem
  · intro h
    unfold atualizar_status_xml_v3
    rw [h]
    split_ifs with g1 g2 g3
    · rfl
    · rfl
    · rfl
    · exact absurd rfl g2
  · intro h
    cases h
    unfold baixar_xml_individual
    cases dEmi with
    | none => rfl
    | some ds =>
      cases nNF with
      | none => rfl
      | some num =>
        cases hg : gerar_xml_path w.fs chave ds num ("resultado") with
        | none => simp [hg]
        | some pr =>
          obtain ⟨pasta, caminho⟩ := pr
          simp [hg]

/-- Witness for C1 at a concrete task whose fetch fails: the pending row is
left untouched for a later run. -/
theorem claim_C1_witness :
    (baixar_uma_nota chaveExemplo (some ("17/07/2025")) (some ("7"))
        { busca := none, escritaFalha := false }
        { db := [notaPendenteBr], fs := fsVazio }).1.db = [notaPendenteBr] :=
  (claim_C1 chaveExemplo (some ("17/07/2025")) (some ("7"))
    { busca := none, escritaFalha := false }
    { db := [notaPendenteBr], fs := fsVazio }
    [] fsVazio ("") ⟨[], ("")⟩ ("") false false notaBase).1 rfl

/-- Claim C4: the v1 downloader computes `empty` from the document text, but
the v3 async downloader does not. Evaluating both at the failing input — a
blank (empty-string) document fetched for a pending record: the v3 path marks
the row downloaded with `xml_vazio = 0` even though the content is blank
(the `xml_vazio` parameter of v3 `atualizar_status_xml` defaults to 0 and
`baixar_xml_individual` never passes it), while the v1 update on the same
blank text sets `xml_vazio = 1` as the claim states. -/
theorem claim_C4_bug_eval :
    pyStrip (String.toList ("")) = [] ∧
    ((baixar_xml_individual chaveExemplo (some ("17/07/2025")) (some ("7"))
        { busca := some (""), escritaFalha := false }
        { db := [notaPendenteBr], fs := fsVazio }).db).map
      (fun n => (n.xml_baixado, n.xml_vazio)) = [(true, false)] ∧
    (atualizar_status_xml_v1 [notaPendenteBr] chaveExemplo
        (caminhoNota chaveExemplo 2025 7 17 (some ("7"))) ("") false).map
      (fun n => (n.xml_baixado, n.xml_vazio)) = [(true, true)] := by
  refine ⟨by decide, by decide, by decide⟩

/-! ## API client retries (Claim C5) -/

/-- The observable outcome of one HTTP attempt: a response with its status
code and, when the body parses, its JSON value (only its identity matters, so
a `Nat` tag stands for the dict; `none` marks a non-dict body), or a network
error (`aiohttp.ClientError`), or a timeout. -/
inductive Tentativa where
  | http (status : Nat) (corpo : Option Nat)
  | redeErro
  | tempoEsgotado
deriving DecidableEq, Repr

/-- The `RuntimeError` raised after the retry budget is exhausted: its message
names the method and the attempt count. -/
structure FalhaPermanente where
  metodo : String
  tentativas : Nat
deriving DecidableEq, Repr

/-- One iteration of the v3 `OmieClient.call_api` retry loop body on the
outcome of attempt `t`: `some (ok j)` returns the dict, `some (error e)`
raises out of the loop, `none` falls through to the next attempt. Mirrors the
source: 429 → sleep and continue; 5xx → sleep and continue; any other status
≥ 400 → `raise_for_status` raises `ClientResponseError`, which the
`except aiohttp.ClientError` arm catches, sleeps, and retries; a 2xx/3xx
response with a non-dict body raises `ValueError`, which the generic
`except Exception` arm catches and retries; network errors and timeouts are
caught and retried. Nothing escapes an iteration. -/
def call_api_passo : Tentativa → Option Nat
  | .http status corpo =>
    if status = 429 then none
    else if 500 ≤ status ∧ status < 600 then none
    else if 400 ≤ status then none
    else
      match corpo with
      | some j => some j
      | none => none
  | .redeErro => none
  | .tempoEsgotado => none

/-- The v3 retry loop: attempts `t, t+1, ...` with `restantes` attempts left;
after the last one, `RuntimeError` naming the method and `max_retries`. -/
def call_api_de (metodo : String) (respostas : Nat → Tentativa) :
    Nat → Nat → Except FalhaPermanente Nat
  | _, 0 => .error ⟨metodo, 5⟩
  | t, restantes + 1 =>
    match call_api_passo (respostas t) with
    | some j => .ok j
    | none => call_api_de metodo respostas (t + 1) restantes

/-- v3 `OmieClient.call_api` (src/src/omie_client_async.py):
`max_retries = 5`, attempts numbered from 1. -/
def call_api (metodo : String) (respostas : Nat → Tentativa) :
    Except FalhaPermanente Nat :=
  call_api_de metodo respostas 1 5

/-- The v1 `with_retries` decorator (src/omie_client_async.py): retries the
wrapped coroutine on every exception; on the final attempt (`attempt ==
max_retries`) it re-raises the original exception, untyped. `op t` is the
outcome of attempt `t` (`error e` models the raised exception `e`). The outer
`none` is the implicit `None` a zero-iteration loop would return. -/
def with_retries_de (op : Nat → Except String Nat) (maxR : Nat) :
    Nat → Nat → Option (Except String Nat)
  | _, 0 => none
  | t, fuel + 1 =>
    match op t with
    | .ok v => some (.ok v)
    | .error e => if t = maxR then some (.error e) else with_retries_de op maxR (t + 1) fuel

/-- `with_retries(max_retries)(func)` applied once: attempts start at 1 and
the fuel equals the retry budget. -/
def with_retries (maxR : Nat) (op : Nat → Except String Nat) :
    Option (Except String Nat) :=
  with_retries_de op maxR 1 maxR

/-- A run whose first attempt is a 404 client error and whose second attempt
succeeds with a dict body tagged `7`. -/
def respostas404 : Nat → Tentativa :=
  fun t => if t = 1 then .http 404 none else .http 200 (some 7)

/-- Claim C5, counterexample: a 4xx other than 429 IS retried. In
`OmieClient.call_api`, `raise_for_status` on a 404 raises
`ClientResponseError`, a subclass of the `aiohttp.ClientError` the loop
catches and retries; with a 404 on attempt 1 and a success on attempt 2 the
call returns the dict instead of failing permanently. The v1 `with_retries`
decorator likewise retries a 403 and, on exhaustion, re-raises the bare
underlying exception rather than a typed error naming method and attempts. -/
theorem claim_C5_counterexample :
    call_api ("ObterNfe") respostas404 = .ok 7 ∧
    with_retries 3 (fun _ => .error ("HTTP 403")) =
      some (.error ("HTTP 403")) := by
  refine ⟨rfl, rfl⟩

theorem call_api_de_falha (metodo : String) (respostas : Nat → Tentativa)
    (t k : Nat) (h : ∀ i, t ≤ i → i < t + k → call_api_passo (respostas i) = none) :
    call_api_de metodo respostas t k = .error ⟨metodo, 5⟩ := by
  induction k generalizing t with
  | zero => rfl
  | succ k ih =>
    unfold call_api_de
    rw [h t le_rfl (by omega)]
    exact ih (t + 1) (fun i h1 h2 => h i (by omega) (by omega))

/-- Claim C5 (amended): in `OmieClient.call_api` every failing attempt —
including a client error other than 429 — is retried alike, up to the budget
of 5 attempts; a run whose first five attempts all fail produces the typed
permanent failure naming the method and the attempt count, and a run with a
non-429 4xx on attempt 1 and a well-formed success on attempt 2 returns that
success (the 4xx was retried, not fatal). The fail-fast-on-4xx behaviour
exists only in the `call_api_com_retentativa` wrapper of the extractor, not
in the cited client. -/
theorem claim_C5_amended (metodo : String) (respostas : Nat → Tentativa)
    (j status : Nat)
    (hfail : ∀ i, 1 ≤ i → i ≤ 5 → call_api_passo (respostas i) = none)
    (h4xx : 400 ≤ status) (h4xx2 : status < 500) (hn429 : status ≠ 429) :
    call_api metodo respostas = .error ⟨metodo, 5⟩ ∧
    (∀ resp2 : Nat → Tentativa, resp2 1 = .http status none →
      resp2 2 = .http 200 (some j) → call_api metodo resp2 = .ok j) := by
  constructor
  · exact call_api_de_falha metodo respostas 1 5
      (fun i h1 h2 => hfail i h1 (by omega))
  · intro resp2 h1 h2
    unfold call_api call_api_de
    rw [h1]
    have hp1 : call_api_passo (.http status none) = none := by
      simp only [call_api_passo]
      rw [if_neg hn429, if_neg (by omega), if_pos h4xx]
    rw [hp1]
    unfold call_api_de
    rw [h2]
    rfl

/-- Witness for the amended C5 theorem: all five attempts time out, and the
retried-404 run. -/
theorem claim_C5_amended_witness :
    call_api ("ObterNfe") (fun _ => .tempoEsgotado) =
      .error ⟨("ObterNfe"), 5⟩ ∧
    call_api ("ObterNfe") respostas404 = .ok 7 := by
  have h := claim_C5_amended ("ObterNfe") (fun _ => .tempoEsgotado) 7 404
    (fun i _ _ => rfl) (by omega) (by omega) (by omega)
  exact ⟨h.1, h.2 respostas404 (by decide) (by decide)⟩

/-! ## Concurrency ceiling (Claim C9) -/

/-- The state of `asyncio.Semaphore(calls_per_second)` together with the
instrumented count of tasks inside the guarded HTTP section:
`disponiveis` free permits, `emVoo` tasks that entered
`async with self.semaphore` around `session.post` and have not left. -/
structure EstadoSemaforo where
  disponiveis : Nat
  emVoo : Nat
deriving DecidableEq, Repr

/-- The two atomic transitions the event loop interleaves: a task acquires a
free permit and enters the request section, or a task leaves the section and
releases its permit. Waiting tasks (no free permit) cannot enter. -/
inductive PassoSemaforo : EstadoSemaforo → EstadoSemaforo → Prop where
  | adquirir (a f : Nat) (h : 0 < a) :
      PassoSemaforo ⟨a, f⟩ ⟨a - 1, f + 1⟩
  | liberar (a f : Nat) (h : 0 < f) :
      PassoSemaforo ⟨a, f⟩ ⟨a + 1, f - 1⟩

/-- States reachable from the initial one — semaphore fresh at
`calls_per_second` permits, nobody in flight — by any interleaving. -/
def Alcancavel (callsPerSecond : Nat) (s : EstadoSemaforo) : Prop :=
  Relation.ReflTransGen PassoSemaforo ⟨callsPerSecond, 0⟩ s

/-- Claim C9: under every interleaving of acquire/release steps, the number of
tasks simultaneously inside the semaphore-guarded HTTP request section never
exceeds the configured `calls_per_second`. (Proved via the inductive
invariant `disponiveis + emVoo = calls_per_second`.) -/
theorem claim_C9 (callsPerSecond : Nat) (s : EstadoSemaforo)
    (h : Alcancavel callsPerSecond s) : s.emVoo ≤ callsPerSecond := by
  have inv : ∀ s2 : EstadoSemaforo, Alcancavel callsPerSecond s2 →
      s2.disponiveis + s2.emVoo = callsPerSecond := by
    intro s2 hs2
    induction hs2 with
    | refl => rfl
    | tail _ passo ih =>
      cases passo with
      | adquirir a f ha =>
        simp only at ih ⊢
        omega
      | liberar a f hf =>
        simp only at ih ⊢
        omega
  have := inv s h
  omega

/-- Witness for C9: with a limit of 4, the state after one acquisition is
reachable and satisfies the bound. -/
theorem claim_C9_witness : (1 : Nat) ≤ 4 :=
  claim_C9 4 ⟨3, 1⟩
    (Relation.ReflTransGen.single (PassoSemaforo.adquirir 4 0 (by omega)))

end Omie
